import Mathlib

/-!
Verification of the IMMO&CO client search/filter/view coordinator.

Shallow embedding of the search/filter/view logic of `src/frontend/src/App.js`
(the `Home` component, `FiltersSidebar`, `PublishDialog.handleMapClick`,
`ListingCard`) and of the map component in `src/unnamed/part_000`
(`Map`, `FitBounds`).

JavaScript state updates are modelled as pure state transformers; the
single-threaded event loop is modelled by explicit sequencing of the
synchronous prologue of an async handler and its response continuation.
Query parameters (JS objects passed to axios) are modelled as ordered
association lists over `String`, mirroring JS object insertion order.
-/

/-- A query-parameter value as passed to axios: the code sends strings
(filter fields, search text), one boolean (`random_order: true`) and one
number (`limit: 20`). -/
inductive PVal where
  | str (s : String)
  | boolean (b : Bool)
  | num (n : Nat)
deriving Repr, DecidableEq

/-- The structured filter state of the `Home` component
(`App.js:1171-1181`): nine string-valued fields, all held as raw input
strings, empty string meaning "no constraint". -/
structure Filters where
  city : String
  neighborhood : String
  listing_type : String
  price_min : String
  price_max : String
  surface_min : String
  surface_max : String
  rooms_min : String
  rooms_max : String
deriving Repr, DecidableEq

/-- Initial filter state of the `Home` component (`App.js:1171-1181`):
every field is the empty string. -/
def initialFilters : Filters :=
  { city := "", neighborhood := "", listing_type := "", price_min := "",
    price_max := "", surface_min := "", surface_max := "", rooms_min := "",
    rooms_max := "" }

/-- The constant object that `resetFilters` in `FiltersSidebar` passes to
`setFilters` (`App.js:269-281`): a literal with every field `''`, written
in the source independently of the initial state literal. -/
def resetFiltersValue : Filters :=
  { city := "", neighborhood := "", listing_type := "", price_min := "",
    price_max := "", surface_min := "", surface_max := "", rooms_min := "",
    rooms_max := "" }

/-- Names of the nine filter fields, one per `onChange` handler in
`FiltersSidebar` (`App.js:296-414`). -/
inductive FilterField where
  | city | neighborhood | listing_type | price_min | price_max
  | surface_min | surface_max | rooms_min | rooms_max
deriving Repr, DecidableEq

/-- Read one field of the filter state. -/
def Filters.get (f : Filters) : FilterField → String
  | .city => f.city
  | .neighborhood => f.neighborhood
  | .listing_type => f.listing_type
  | .price_min => f.price_min
  | .price_max => f.price_max
  | .surface_min => f.surface_min
  | .surface_max => f.surface_max
  | .rooms_min => f.rooms_min
  | .rooms_max => f.rooms_max

/-- The query-string key each filter field is serialized under
(`Object.entries` uses the JS object property names, `App.js:1171-1181`). -/
def filterFieldName : FilterField → String
  | .city => "city"
  | .neighborhood => "neighborhood"
  | .listing_type => "listing_type"
  | .price_min => "price_min"
  | .price_max => "price_max"
  | .surface_min => "surface_min"
  | .surface_max => "surface_max"
  | .rooms_min => "rooms_min"
  | .rooms_max => "rooms_max"

/-- Whether a filter field is numeric (price, surface, rooms bounds),
i.e. rendered as `<Input type="number">` in `FiltersSidebar`
(`App.js:362-414`). -/
def isNumericField : FilterField → Bool
  | .price_min | .price_max | .surface_min | .surface_max
  | .rooms_min | .rooms_max => true
  | _ => false

/-- One filter-field edit: the `onChange` handlers in `FiltersSidebar` all
run `setFilters({...filters, field: value})` (`App.js:296-414`), i.e. a
single-field functional record update storing the raw input string. -/
def setFilterField (f : Filters) : FilterField → String → Filters
  | .city, v => { f with city := v }
  | .neighborhood, v => { f with neighborhood := v }
  | .listing_type, v => { f with listing_type := v }
  | .price_min, v => { f with price_min := v }
  | .price_max, v => { f with price_max := v }
  | .surface_min, v => { f with surface_min := v }
  | .surface_max, v => { f with surface_max := v }
  | .rooms_min, v => { f with rooms_min := v }
  | .rooms_max, v => { f with rooms_max := v }

/-- Model of `Object.entries(filters)` (`App.js:1251-1253`): the nine
(key, value) pairs in JS object insertion order. -/
def filtersEntries (f : Filters) : List (String × String) :=
  [("city", f.city), ("neighborhood", f.neighborhood),
   ("listing_type", f.listing_type), ("price_min", f.price_min),
   ("price_max", f.price_max), ("surface_min", f.surface_min),
   ("surface_max", f.surface_max), ("rooms_min", f.rooms_min),
   ("rooms_max", f.rooms_max)]

/-- The `searchParams` object built by `handleSearch` (`App.js:1248-1256`):
`{search: searchQuery || undefined, ...entries(filters).filter(v !== '')}`.
The `search` key carries `undefined` when `searchQuery` is falsy (the empty
string) and axios omits `undefined`-valued params from the serialized
query, so the serialized object contains `search` exactly when the query
text is non-empty. -/
def handleSearchParams (q : String) (f : Filters) : List (String × PVal) :=
  (if q != "" then [("search", PVal.str q)] else [])
    ++ ((filtersEntries f).filter (fun e => e.2 != "")).map
        (fun e => (e.1, PVal.str e.2))

/-- JS object spread `{...base, ...over}` on axios param objects: keys of
`base` keep their position, overridden by `over` where present; keys new
in `over` are appended in order. -/
def jsSpread (base over : List (String × PVal)) : List (String × PVal) :=
  base.map (fun e => (e.1, ((over.lookup e.1).getD e.2)))
    ++ over.filter (fun e => (base.lookup e.1).isNone)

/-- The base params of `fetchListings` (`App.js:1196-1200`):
`{random_order: true, limit: 20}`. -/
def fetchListingsBaseParams : List (String × PVal) :=
  [("random_order", PVal.boolean true), ("limit", PVal.num 20)]

/-- The params object `fetchListings` hands to axios (`App.js:1196-1202`):
`{random_order: true, limit: 20, ...searchParams}`. -/
def fetchListingsParams (searchParams : List (String × PVal)) :
    List (String × PVal) :=
  jsSpread fetchListingsBaseParams searchParams

/-- The full outbound listing query produced by a user-triggered search:
`handleSearch` builds `searchParams` and calls `fetchListings` with it
(`App.js:1248-1256`). -/
def searchOutboundQuery (q : String) (f : Filters) : List (String × PVal) :=
  fetchListingsParams (handleSearchParams q f)

/-- A listing snapshot as the client holds it: the fields the coordinator
logic reads. Coordinates are optional numbers (`lat`/`lon` may be `null`,
`App.js:620-621`); we model them over `ℚ`. -/
structure Listing where
  id : String
  title : String
  price : ℚ
  listing_type : String
  lat : Option ℚ
  lon : Option ℚ
deriving Repr, DecidableEq

/-- JS truthiness of an optional numeric coordinate as used in
`listing.lat && listing.lon` (`part_000:48,78,108`, `App.js:1020`):
`null`/`undefined` and `0` are falsy, every other number truthy. -/
def jsTruthyCoord : Option ℚ → Bool
  | none => false
  | some x => x != 0

/-- The coordinate test all three sites apply to a listing:
`listing.lat && listing.lon`. -/
def hasTruthyCoords (l : Listing) : Bool :=
  jsTruthyCoord l.lat && jsTruthyCoord l.lon

/-- The markers the `Map` component renders (`part_000:107-137`): one per
listing passing `listing.lat && listing.lon`, in listing order. -/
def mapMarkers (listings : List Listing) : List Listing :=
  listings.filter hasTruthyCoords

/-- The `validListings` that `FitBounds` fits the map bounds to
(`part_000:43-59`): the same truthiness filter. -/
def fitBoundsListings (listings : List Listing) : List Listing :=
  listings.filter hasTruthyCoords

/-- Whether a `ListingCard` shows the map-jump ("Carte") button
(`App.js:1020-1030`): `listing.lat && listing.lon && (...)`. -/
def cardShowsMapButton (l : Listing) : Bool :=
  hasTruthyCoords l

/-- State of the `Home` component relevant to the coordinator
(`App.js:1159-1181`): result set, loading flag, query text, active view,
filters, plus instrumentation for observable effects (error toasts
emitted, fetches issued). -/
structure HomeState where
  listings : List Listing
  favorites : List Listing
  myListings : List Listing
  loading : Bool
  searchQuery : String
  activeView : String
  filters : Filters
  errorNotices : Nat
  fetchesIssued : Nat
deriving Repr, DecidableEq

/-- Initial `Home` state (`App.js:1161-1181`): empty result set,
`loading = true`, empty query, view `'home'`, empty filters. -/
def initHomeState : HomeState :=
  { listings := [], favorites := [], myListings := [], loading := true,
    searchQuery := "", activeView := "home", filters := initialFilters,
    errorNotices := 0, fetchesIssued := 0 }

/-- Result of an in-flight listing fetch: the response data, or a
network/backend failure. -/
inductive FetchResult where
  | ok (data : List Listing)
  | err
deriving Repr, DecidableEq

/-- Synchronous prologue of `fetchListings` (`App.js:1193-1194`):
`setLoading(true)` and one request issued. The response is handled later
by `fetchListingsComplete`. -/
def fetchListingsStart (s : HomeState) : HomeState :=
  { s with loading := true, fetchesIssued := s.fetchesIssued + 1 }

/-- The response continuation of `fetchListings` (`App.js:1202-1209`):
on success `setListings(response.data)`; on failure `toast.error(...)`
with the result set untouched; `finally { setLoading(false) }` either way.
Note the continuation is the same closure for every outstanding request:
no sequence number or staleness check appears anywhere in it. -/
def fetchListingsComplete (s : HomeState) (r : FetchResult) : HomeState :=
  match r with
  | .ok data => { s with listings := data, loading := false }
  | .err => { s with errorNotices := s.errorNotices + 1, loading := false }

/-- Model of `setActiveView(v)` as used throughout `Home` (`App.js:1164`,
`1297-1492`): a plain `useState` setter; no data fetch is attached to view
changes (no effect hook depends on `activeView`). -/
def setActiveView (s : HomeState) (v : String) : HomeState :=
  { s with activeView := v }

/-- Model of `resetFilters` in `FiltersSidebar` (`App.js:269-281`) as a transformer
of the `Home` state: it calls only `setFilters` with the all-empty
literal, touching no other state. -/
def resetFiltersAction (s : HomeState) : HomeState :=
  { s with filters := resetFiltersValue }

/-- The listing sequence `renderContent` (`App.js:1279-1492`) feeds to the
active view: the `'map'` branch hands `listings` to the `Map` component
(`App.js:1337-1341`), the `'search'` branch and the default (`'home'`)
branch map over the same `listings` in order (`App.js:1322,1469`);
`'favorites'` and `'profile'` render their own collections. -/
def renderedListings (s : HomeState) : List Listing :=
  match s.activeView with
  | "search" => s.listings
  | "map" => s.listings
  | "favorites" => s.favorites
  | "profile" => s.myListings
  | _ => s.listings

/-- The race scenario of the spec: two `search()` fetches issued A then B
from state `s`, B's response (carrying `dataB`) resolving first, A's
response (carrying `dataA`) resolving second. On the single-threaded
event loop this is exactly: both prologues run, then B's continuation,
then A's continuation. -/
def raceRun (s : HomeState) (dataA dataB : List Listing) : HomeState :=
  fetchListingsComplete
    (fetchListingsComplete (fetchListingsStart (fetchListingsStart s))
      (.ok dataB))
    (.ok dataA)

/-- The reverse-geocode response body (`App.js:596`): `data.city`,
`data.neighborhood`, `data.address`, each possibly absent. -/
structure GeoData where
  city : Option String
  neighborhood : Option String
  address : Option String
deriving Repr, DecidableEq

/-- State of `PublishDialog` relevant to the map-placement flow
(`App.js:559-605`). -/
structure PublishState where
  city : String
  neighborhood : String
  address : String
  placedMarker : Option (ℚ × ℚ)
  isPlacingMarker : Bool
  successNotices : Nat
  errorNotices : Nat
deriving Repr, DecidableEq

/-- Model of `x || ''` on a possibly-absent string field: absent becomes `''`
(a present empty string is also `''`, the same value). -/
def jsOrEmpty : Option String → String
  | none => ""
  | some s => s

/-- Model of `handleMapClick` in `PublishDialog` (`App.js:590-605`): records the
marker and leaves placing mode before the await; then, when the
reverse-geocode response arrives, on success sets city/neighborhood/
address from the response (`data.x || ''`) and toasts success; on failure
toasts an error and touches no field. -/
def handleMapClick (s : PublishState) (latlng : ℚ × ℚ) (r : Option GeoData) :
    PublishState :=
  let s1 := { s with placedMarker := some latlng, isPlacingMarker := false }
  match r with
  | some data =>
      { s1 with city := jsOrEmpty data.city,
                neighborhood := jsOrEmpty data.neighborhood,
                address := jsOrEmpty data.address,
                successNotices := s1.successNotices + 1 }
  | none => { s1 with errorNotices := s1.errorNotices + 1 }

/-- Concrete listings used to separate responses in counterexamples. -/
def listingA : Listing :=
  { id := "a", title := "Villa Akanda", price := 1000000,
    listing_type := "sale", lat := none, lon := none }

def listingB : Listing :=
  { id := "b", title := "Studio Port-Gentil", price := 200000,
    listing_type := "rent", lat := none, lon := none }

/-- Rendering of claim C1 as stated: for every race of two searches A
then B in which B's response resolves first, the final result set equals
B's data. (The code tags requests with no sequence number, so the claim
must hold of the raw completion order for the spec to be right.) -/
def staleResponseGuardHolds : Prop :=
  ∀ (s : HomeState) (dataA dataB : List Listing),
    (raceRun s dataA dataB).listings = dataB

/-- Rendering of claim C5 as stated: a successful reverse-geocode lookup
never overrides city/neighborhood/address values already present. The
component state keeps no record of which fields were manually edited
after a previous lookup, so any prior value may be such an edit, and the
guarantee must quantify over all prior states. -/
def geocodePreservesManualEdits : Prop :=
  ∀ (s : PublishState) (p : ℚ × ℚ) (data : GeoData),
    (handleMapClick s p (some data)).city = s.city ∧
    (handleMapClick s p (some data)).neighborhood = s.neighborhood ∧
    (handleMapClick s p (some data)).address = s.address

/-- Apply a sequence of filter-field edits starting from the initial
filter state, each edit being one `onChange` firing. -/
def applyFilterEdits (edits : List (FilterField × String)) : Filters :=
  edits.foldl (fun acc e => setFilterField acc e.1 e.2) initialFilters

/-- Rendering of the validation clause of claim C4: a string holding a
negative integer, as typed into a numeric filter input (`"-5"`). -/
def isNegNumStr (s : String) : Bool :=
  match s.data with
  | [] => false
  | c :: rest =>
      c == '-' && !rest.isEmpty && rest.all (fun d => '0' ≤ d && d ≤ '9')

/-- Rendering of the claim that `setFilterField` "validates that numeric
fields are non-negative": after any edit, a numeric field never holds a
negative-number string. -/
def setFilterFieldValidatesNonNegative : Prop :=
  ∀ (f : Filters) (field : FilterField) (v : String),
    isNumericField field = true →
    isNegNumStr ((setFilterField f field v).get field) = false

/-- Concrete listing on the equator used to instantiate C9. -/
def listingEquator : Listing :=
  { id := "eq", title := "Maison sur l'equateur", price := 500000,
    listing_type := "sale", lat := some 0, lon := some 9 }

/-- Publish-dialog state in which the user has manually edited the city
to "Akanda" after a previous lookup. -/
def editedPublishState : PublishState :=
  { city := "Akanda", neighborhood := "Nombakele", address := "Rue 1",
    placedMarker := some (1, 2), isPlacingMarker := true,
    successNotices := 0, errorNotices := 0 }

/-- A successful reverse-geocode response suggesting Libreville. -/
def geoLibreville : GeoData :=
  { city := some "Libreville", neighborhood := none, address := none }

/-- Filter state with min greater than max on all three numeric
dimensions (price, surface, rooms), used to instantiate C4. -/
def minGtMaxFilters : Filters :=
  { city := "", neighborhood := "", listing_type := "", price_min := "10",
    price_max := "5", surface_min := "50", surface_max := "20",
    rooms_min := "4", rooms_max := "2" }

/-- C1 (counterexample): the claim's last-issued-wins guarantee fails.
From the initial state, issue search A then search B; B's response
(`[listingB]`) resolves first, A's (`[listingA]`) second; the final
result set is A's, not B's: `fetchListings` has no stale-response
guard (`App.js:1193-1210`). -/
theorem C1_counterexample : ¬ staleResponseGuardHolds := by
  intro h
  have h2 := h initHomeState [listingA] [listingB]
  simp only [raceRun, fetchListingsStart, fetchListingsComplete] at h2
  exact absurd (List.head_eq_of_cons_eq h2) (by decide)

/-- C1 (amended): the coordinator is last-completed-wins: whenever two
searches are issued A then B and B's response resolves before A's, the
final result set equals A's response — every response unconditionally
replaces the result set via `setListings` (`App.js:1203`). -/
theorem C1_last_completed_wins (s : HomeState) (dataA dataB : List Listing) :
    (raceRun s dataA dataB).listings = dataA := rfl

/-- C2: when a listing fetch fails, the result set and the filters are
left unchanged, one error notice is surfaced (`toast.error`,
`App.js:1206`), the loading flag is cleared (`finally`, `App.js:1208`) so
the coordinator is back to idle, and a subsequent successful search still
replaces the result set (the failure is not fatal). -/
theorem C2_error_preserves_state (s : HomeState) (d : List Listing) :
    (fetchListingsComplete s .err).listings = s.listings ∧
    (fetchListingsComplete s .err).filters = s.filters ∧
    (fetchListingsComplete s .err).errorNotices = s.errorNotices + 1 ∧
    (fetchListingsComplete s .err).loading = false ∧
    (fetchListingsComplete
        (fetchListingsStart (fetchListingsComplete s .err))
        (.ok d)).listings = d :=
  ⟨rfl, rfl, rfl, rfl, rfl⟩

/-- C6: switching into the map view and back without an intervening
search changes nothing but the view field (in particular the result set
and the number of fetches issued are unchanged — no re-fetch is attached
to view switches), and the map view and the list view are fed the same
listing sequence, `s.listings`, in the same order. -/
theorem C6_view_switch_preserves_results (s : HomeState) :
    setActiveView (setActiveView s "map") "home"
        = { s with activeView := "home" } ∧
    (setActiveView (setActiveView s "map") "home").listings = s.listings ∧
    (setActiveView (setActiveView s "map") "home").fetchesIssued
        = s.fetchesIssued ∧
    renderedListings (setActiveView s "map") = s.listings ∧
    renderedListings (setActiveView (setActiveView s "map") "home")
        = s.listings :=
  ⟨rfl, rfl, rfl, rfl, rfl⟩

/-- C7: when the reverse-geocode call fails, city/neighborhood/address
keep their prior values, one error notice is emitted, and the placed
marker is still recorded (it is set before the await, `App.js:591`), so
the authoring flow continues. -/
theorem C7_geocode_failure_nonfatal (s : PublishState) (p : ℚ × ℚ) :
    (handleMapClick s p none).city = s.city ∧
    (handleMapClick s p none).neighborhood = s.neighborhood ∧
    (handleMapClick s p none).address = s.address ∧
    (handleMapClick s p none).errorNotices = s.errorNotices + 1 ∧
    (handleMapClick s p none).placedMarker = some p :=
  ⟨rfl, rfl, rfl, rfl, rfl⟩

/-- C8: `resetFilters` followed by `search()` serializes the same
outbound query as a freshly-initialized coordinator carrying the same
query text, and `resetFilters` changes neither the query text nor the
active view (it calls only `setFilters`, `App.js:269-281`). -/
theorem C8_reset_filters_fresh (s : HomeState) :
    searchOutboundQuery (resetFiltersAction s).searchQuery
        (resetFiltersAction s).filters
      = searchOutboundQuery s.searchQuery
          ({ initHomeState with searchQuery := s.searchQuery } :
            HomeState).filters ∧
    (resetFiltersAction s).searchQuery = s.searchQuery ∧
    (resetFiltersAction s).activeView = s.activeView :=
  ⟨rfl, rfl, rfl⟩

/-- An association list whose keys all differ from `k` has no binding
for `k`. -/
theorem lookup_none_of_keys_ne {β : Type} (l : List (String × β)) (k : String)
    (h : ∀ e ∈ l, e.1 ≠ k) : l.lookup k = none := by
  induction l with
  | nil => rfl
  | cons a t ih =>
      obtain ⟨a1, a2⟩ := a
      have ha := h (a1, a2) (List.mem_cons_self _ _)
      simp only [List.lookup]
      rw [show (k == a1) = false by
        simp only [beq_eq_false_iff_ne]; exact fun hk => ha hk.symm]
      exact ih (fun e he => h e (List.mem_cons_of_mem _ he))

/-- Every key of the `searchParams` object built by `handleSearch` is
the `search` key or one of the nine filter-field keys. -/
theorem handleSearchParams_keys (q : String) (f : Filters) :
    ∀ e ∈ handleSearchParams q f,
      e.1 ∈ ["search", "city", "neighborhood", "listing_type", "price_min",
             "price_max", "surface_min", "surface_max", "rooms_min",
             "rooms_max"] := by
  intro e he
  simp only [handleSearchParams, filtersEntries, List.mem_append, List.mem_map,
    List.mem_filter] at he
  rcases he with he | ⟨a, ⟨ha, _⟩, rfl⟩
  · by_cases hq : q != ""
    · simp only [hq, if_true, List.mem_singleton] at he
      simp [he]
    · simp [hq] at he
  · simp only [List.mem_cons, List.not_mem_nil, or_false] at ha
    rcases ha with rfl | rfl | rfl | rfl | rfl | rfl | rfl | rfl | rfl <;> simp

/-- The `searchParams` object never binds a key outside the ten
search/filter keys. -/
theorem handleSearchParams_lookup_none (q : String) (f : Filters) (k : String)
    (hk : k ∉ (["search", "city", "neighborhood", "listing_type", "price_min",
                "price_max", "surface_min", "surface_max", "rooms_min",
                "rooms_max"] : List String)) :
    (handleSearchParams q f).lookup k = none := by
  apply lookup_none_of_keys_ne
  intro e he hek
  exact hk (hek ▸ handleSearchParams_keys q f e he)

/-- A filter field whose current value is the empty string contributes
no key to the serialized outbound query. -/
theorem filter_key_absent_of_empty (q : String) (f : Filters)
    (field : FilterField) (h : f.get field = "") :
    filterFieldName field ∉ (searchOutboundQuery q f).map Prod.fst := by
  intro hmem
  simp only [searchOutboundQuery, fetchListingsParams, jsSpread,
    List.map_append, List.mem_append, List.map_map, fetchListingsBaseParams,
    Function.comp] at hmem
  rcases hmem with hmem | hmem
  · cases field <;> simp [filterFieldName] at hmem
  · simp only [List.mem_map] at hmem
    obtain ⟨e, he, hk⟩ := hmem
    have he2 := List.mem_of_mem_filter he
    simp only [handleSearchParams, filtersEntries, List.mem_append,
      List.mem_map, List.mem_filter] at he2
    rcases he2 with he2 | ⟨a, ⟨ha, hne⟩, rfl⟩
    · by_cases hq : q != ""
      · simp only [hq, if_true, List.mem_singleton] at he2
        rw [he2] at hk
        cases field <;> simp [filterFieldName] at hk
      · simp [hq] at he2
    · simp only [List.mem_cons, List.not_mem_nil, or_false] at ha
      rcases ha with rfl | rfl | rfl | rfl | rfl | rfl | rfl | rfl | rfl <;>
        cases field <;> simp_all [filterFieldName, Filters.get]

/-- With empty query text the serialized outbound query carries no
`search` key (the source sends `search: undefined`, which axios omits). -/
theorem search_key_absent (f : Filters) :
    "search" ∉ (searchOutboundQuery "" f).map Prod.fst := by
  intro hmem
  simp only [searchOutboundQuery, fetchListingsParams, jsSpread,
    List.map_append, List.mem_append, List.map_map, fetchListingsBaseParams,
    Function.comp] at hmem
  rcases hmem with hmem | hmem
  · simp at hmem
  · simp only [List.mem_map] at hmem
    obtain ⟨e, he, hk⟩ := hmem
    have he2 := List.mem_of_mem_filter he
    simp only [handleSearchParams, filtersEntries, List.mem_append,
      List.mem_map, List.mem_filter] at he2
    rcases he2 with he2 | ⟨a, ⟨ha, hne⟩, rfl⟩
    · simp at he2
    · simp only [List.mem_cons, List.not_mem_nil, or_false] at ha
      rcases ha with rfl | rfl | rfl | rfl | rfl | rfl | rfl | rfl | rfl <;>
        simp_all

/-- An entry of the `searchParams` object whose key is not among the
base keys of `fetchListings` survives the spread into the axios params. -/
theorem mem_searchOutboundQuery_of_mem (q : String) (f : Filters)
    (e : String × PVal) (he : e ∈ handleSearchParams q f)
    (hb : (fetchListingsBaseParams.lookup e.1).isNone = true) :
    e ∈ searchOutboundQuery q f := by
  simp only [searchOutboundQuery, fetchListingsParams, jsSpread,
    List.mem_append]
  exact Or.inr (List.mem_filter.mpr ⟨he, hb⟩)

/-- A filter field with a non-empty value appears verbatim in the
`searchParams` object under its own key. -/
theorem filter_entry_mem (q : String) (f : Filters) (fld : FilterField)
    (h : f.get fld ≠ "") :
    (filterFieldName fld, PVal.str (f.get fld)) ∈ handleSearchParams q f := by
  simp only [handleSearchParams, List.mem_append, List.mem_map,
    List.mem_filter]
  refine Or.inr ⟨(filterFieldName fld, f.get fld), ⟨?_, ?_⟩, rfl⟩
  · cases fld <;> simp [filtersEntries, filterFieldName, Filters.get]
  · simpa using h

/-- C3: for every query text and every sequence of filter-field edits,
the serialized outbound query has no key for a field whose value is the
empty default, and no `search` key when the query text is empty —
`handleSearch` filters out `''`-valued fields (`App.js:1251-1253`) and
axios omits the `undefined`-valued `search` param. -/
theorem C3_empty_fields_omitted (q : String)
    (edits : List (FilterField × String)) (field : FilterField)
    (h : (applyFilterEdits edits).get field = "") :
    filterFieldName field ∉
      (searchOutboundQuery q (applyFilterEdits edits)).map Prod.fst ∧
    (q = "" →
      "search" ∉
        (searchOutboundQuery q (applyFilterEdits edits)).map Prod.fst) := by
  refine ⟨filter_key_absent_of_empty q _ field h, fun hq => ?_⟩
  subst hq
  exact search_key_absent _

/-- C3 witness: set `price_min` to `"5"`, then clear it back to `""`;
the outbound query of an empty-text search has no `price_min` key and no
`search` key. -/
theorem C3_empty_fields_omitted_witness :
    ((applyFilterEdits [(.price_min, "5"), (.price_min, "")]).get
        .price_min = "") ∧
    "price_min" ∉
      (searchOutboundQuery ""
        (applyFilterEdits [(.price_min, "5"), (.price_min, "")])).map
        Prod.fst ∧
    "search" ∉
      (searchOutboundQuery ""
        (applyFilterEdits [(.price_min, "5"), (.price_min, "")])).map
        Prod.fst := by
  have h := C3_empty_fields_omitted "" [(.price_min, "5"), (.price_min, "")]
      .price_min (by decide)
  exact ⟨by decide, h.1, h.2 rfl⟩

/-- C4 (counterexample): no non-negativity validation exists: typing
`-5` into the price-min input stores `"-5"` verbatim in the predicate
(`App.js:369`), refuting the validation clause of the claim. -/
theorem C4_counterexample : ¬ setFilterFieldValidatesNonNegative := by
  intro h
  have h2 := h initialFilters .price_min "-5" rfl
  exact absurd h2 (by decide)

/-- C4 (amended): a filter edit updates exactly one predicate field,
storing the raw input string verbatim with no validation (negative
values included), and min/max pairs are never reordered: every set
filter field — in particular both bounds of the price, surface, and
rooms dimensions whenever both are set, including min greater than
max — reaches the outbound query under its own key with its stored
value unchanged. -/
theorem C4_setFilterField_passthrough (f : Filters) (field : FilterField)
    (v : String) :
    ((setFilterField f field v).get field = v) ∧
    (∀ fld2 : FilterField, fld2 ≠ field →
      (setFilterField f field v).get fld2 = f.get fld2) ∧
    (∀ (q : String) (fld : FilterField), f.get fld ≠ "" →
      (filterFieldName fld, PVal.str (f.get fld))
        ∈ searchOutboundQuery q f) := by
  refine ⟨?_, ?_, ?_⟩
  · cases field <;> rfl
  · intro fld2 hne
    cases field <;> cases fld2 <;> first | rfl | exact absurd rfl hne
  · intro q fld h
    exact mem_searchOutboundQuery_of_mem q f _ (filter_entry_mem q f fld h)
      (by cases fld <;>
        simp [fetchListingsBaseParams, List.lookup, filterFieldName])

/-- C4 witness: editing `price_min` to `"-5"` stores it verbatim and
leaves `price_max` untouched; with min greater than max on all three
numeric dimensions (price 10 over 5, surface 50 over 20, rooms 4 over
2) every bound appears unchanged in the outbound query. -/
theorem C4_setFilterField_passthrough_witness :
    ((setFilterField initialFilters .price_min "-5").get .price_min
        = "-5") ∧
    ((setFilterField initialFilters .price_min "-5").get .price_max
        = "") ∧
    ("price_min", PVal.str "10") ∈ searchOutboundQuery "" minGtMaxFilters ∧
    ("price_max", PVal.str "5") ∈ searchOutboundQuery "" minGtMaxFilters ∧
    ("surface_min", PVal.str "50")
        ∈ searchOutboundQuery "" minGtMaxFilters ∧
    ("surface_max", PVal.str "20")
        ∈ searchOutboundQuery "" minGtMaxFilters ∧
    ("rooms_min", PVal.str "4") ∈ searchOutboundQuery "" minGtMaxFilters ∧
    ("rooms_max", PVal.str "2") ∈ searchOutboundQuery "" minGtMaxFilters := by
  have hA := C4_setFilterField_passthrough initialFilters .price_min "-5"
  have hB := C4_setFilterField_passthrough minGtMaxFilters .city ""
  have hp := hB.2.2 ""
  exact ⟨hA.1, hA.2.1 .price_max (by decide),
    hp .price_min (by decide), hp .price_max (by decide),
    hp .surface_min (by decide), hp .surface_max (by decide),
    hp .rooms_min (by decide), hp .rooms_max (by decide)⟩

/-- C5 (counterexample): a repeated map placement whose reverse-geocode
succeeds clobbers a manual edit: with city manually set to `"Akanda"`, a
successful lookup returning `"Libreville"` overwrites it
(`App.js:597-599`). -/
theorem C5_counterexample : ¬ geocodePreservesManualEdits := by
  intro h
  have h2 := (h editedPublishState (3, 4) geoLibreville).1
  simp [handleMapClick, jsOrEmpty, editedPublishState, geoLibreville] at h2

/-- C5 (amended): on a successful reverse-geocode the response values
unconditionally replace city/neighborhood/address (absent components
becoming empty strings), overwriting whatever values — including manual
edits — were present before; the placed marker is recorded and a success
notice emitted. -/
theorem C5_geocode_overwrites (s : PublishState) (p : ℚ × ℚ)
    (data : GeoData) :
    (handleMapClick s p (some data)).city = jsOrEmpty data.city ∧
    (handleMapClick s p (some data)).neighborhood
        = jsOrEmpty data.neighborhood ∧
    (handleMapClick s p (some data)).address = jsOrEmpty data.address ∧
    (handleMapClick s p (some data)).placedMarker = some p ∧
    (handleMapClick s p (some data)).successNotices
        = s.successNotices + 1 :=
  ⟨rfl, rfl, rfl, rfl, rfl⟩

/-- C9: a listing whose latitude or longitude equals exactly 0 fails the
truthiness test `listing.lat && listing.lon`, so the map renders no
marker for it (`part_000:107-108`), the bounds fitting ignores it
(`part_000:48`), and its card hides the map-jump button
(`App.js:1020`). -/
theorem C9_zero_coordinate_treated_absent (l : Listing)
    (ls : List Listing) (h : l.lat = some 0 ∨ l.lon = some 0) :
    hasTruthyCoords l = false ∧
    l ∉ mapMarkers ls ∧
    l ∉ fitBoundsListings ls ∧
    cardShowsMapButton l = false := by
  have hf : hasTruthyCoords l = false := by
    rcases h with h | h <;> simp [hasTruthyCoords, jsTruthyCoord, h]
  refine ⟨hf, fun hmem => ?_, fun hmem => ?_, hf⟩
  · simp only [mapMarkers] at hmem
    have := List.of_mem_filter hmem
    rw [hf] at this
    exact Bool.false_ne_true this
  · simp only [fitBoundsListings] at hmem
    have := List.of_mem_filter hmem
    rw [hf] at this
    exact Bool.false_ne_true this

/-- C9 witness: a listing at latitude 0 (on the equator, longitude 9)
gets no marker, is ignored by bounds fitting, and shows no map button. -/
theorem C9_zero_coordinate_witness :
    hasTruthyCoords listingEquator = false ∧
    listingEquator ∉ mapMarkers [listingEquator] ∧
    listingEquator ∉ fitBoundsListings [listingEquator] ∧
    cardShowsMapButton listingEquator = false :=
  C9_zero_coordinate_treated_absent listingEquator [listingEquator]
    (Or.inl rfl)

/-- C10: every outbound query of `fetchListings` binds
`random_order = true` and `limit = 20` unless the caller overrides them,
and `handleSearch` never does — its `searchParams` keys are only
`search` and filter-field names — so every user-triggered search
requests random ordering with a 20-item limit. -/
theorem C10_random_order_and_limit (q : String) (f : Filters) :
    (searchOutboundQuery q f).lookup "random_order"
        = some (PVal.boolean true) ∧
    (searchOutboundQuery q f).lookup "limit" = some (PVal.num 20) := by
  have h1 := handleSearchParams_lookup_none q f "random_order" (by decide)
  have h2 := handleSearchParams_lookup_none q f "limit" (by decide)
  constructor
  · simp [searchOutboundQuery, fetchListingsParams, jsSpread,
      fetchListingsBaseParams, List.lookup, h1]
  · simp [searchOutboundQuery, fetchListingsParams, jsSpread,
      fetchListingsBaseParams, List.lookup, h1, h2]
